import Mathlib

/-
Verification of the reading-request proxy handler of cosmic-compass-secure.

The repository holds two revisions of a single serverless request handler
(`exports.handler`):
  * src/netlify/functions/generateReading.js  — the later revision, embedded
    below in namespace `Functions`;
  * src/netlify/generateReading.js            — the older revision, embedded
    in namespace `Legacy`.

The embedding is shallow: JavaScript truthiness on optional string fields is
modelled by `truthy` on `Option String` (absent or empty string is falsy),
template-literal interpolation of a possibly-undefined value by `jstr`
(undefined prints as "undefined"), `x || 'N/A'` by `orNA`, and `JSON.parse`
of the inbound body by an `Event` whose body is absent, malformed, or an
already-parsed `ClientData`.  The upstream fetch is modelled by an
`Upstream` oracle: it either throws (network failure) or responds with a
status, a raw text body, and, when the body parses as JSON, a structured
`GeminiResult`; per the WHATWG fetch API, `response.ok` is derived from the
status (200–299).  Response bodies are modelled as `Json` values (the
handler builds them with JSON.stringify, so the serialized body is valid
JSON by construction).
-/

namespace CosmicCompass

/-- A JSON value, used for response bodies and grounding attributions. -/
inductive Json where
  | str (s : String)
  | num (n : Int)
  | bool (b : Bool)
  | null
  | arr (xs : List Json)
  | obj (fields : List (String × Json))

/-- JavaScript truthiness of a possibly-absent string: `undefined` and the
empty string are falsy, every other string is truthy. -/
def truthy : Option String → Bool
  | none => false
  | some s => !s.isEmpty

/-- Template-literal interpolation of a possibly-absent string:
an undefined value prints as the string "undefined". -/
def jstr : Option String → String
  | none => "undefined"
  | some s => s

/-- The JavaScript expression `x || 'N/A'` on a possibly-absent string. -/
def orNA : Option String → String
  | none => "N/A"
  | some s => if s.isEmpty then "N/A" else s

/-- A birth-details object; every field may be absent. -/
structure BirthDetails where
  name : Option String := none
  dob : Option String := none
  tob : Option String := none
  city : Option String := none
deriving Repr, DecidableEq

/-- The numerologyDetails object of the later revision. -/
structure NumerologyDetails where
  name : Option String := none
  dob : Option String := none
deriving Repr, DecidableEq

/-- The parsed client request body.  It carries the union of the fields the
two revisions destructure (`birthDetails` is read only by the older
revision, `birthDetailsPartner1/2`, `zodiacSign` and `numerologyDetails`
only by the later one), so both revisions are functions of the same
request type. -/
structure ClientData where
  birthDetailsPartner1 : Option BirthDetails := none
  birthDetailsPartner2 : Option BirthDetails := none
  birthDetails : Option BirthDetails := none
  userQuery : Option String := none
  yearInput : Option String := none
  readingType : Option String := none
  previousReading : Option String := none
  zodiacSign : Option String := none
  numerologyDetails : Option NumerologyDetails := none
deriving Repr, DecidableEq

/-- The inbound body as the handler sees it after `JSON.parse`: either a
string that fails to parse, or a parsed object. -/
inductive Body where
  | malformed
  | parsed (data : ClientData)
deriving Repr, DecidableEq

/-- The inbound event: HTTP method and optional body (`none` models an
absent or empty body, both falsy in the `!event.body` check). -/
structure Event where
  httpMethod : String
  body : Option Body
deriving Repr, DecidableEq

/-- One element of `content.parts` in an upstream candidate. -/
structure Part where
  text : Option String := none

/-- The `content` object of an upstream candidate. -/
structure Content where
  parts : Option (List Part) := none

/-- The `groundingMetadata` object of an upstream candidate. -/
structure GroundingMetadata where
  groundingAttributions : Option (List Json) := none

/-- One candidate of the upstream generation response. -/
structure Candidate where
  content : Option Content := none
  groundingMetadata : Option GroundingMetadata := none

/-- The parsed JSON document the upstream API returns on success. -/
structure GeminiResult where
  candidates : Option (List Candidate) := none

/-- The behaviour of the single upstream fetch: it either rejects
(network error, hits the catch-all) or responds with an HTTP status, the
raw text body, and the parsed JSON body when the text parses as JSON
(`none` makes `response.json()` throw). -/
inductive Upstream where
  | throws
  | responds (status : Nat) (textBody : String) (jsonBody : Option GeminiResult)

/-- The fetch API's `response.ok`: status in the range 200–299. -/
def respOk (status : Nat) : Bool := 200 ≤ status && status < 300

/-- The prompt pair the handler sends upstream: the composed user prompt
(`contents`) and system prompt (`systemInstruction`). -/
structure Payload where
  systemPrompt : String
  userPrompt : String
deriving Repr, DecidableEq

/-- The handler's outcome: HTTP status code, JSON response body, and the
payload of the upstream call when one was made (`none` means the upstream
API was never called). -/
structure HandlerResult where
  statusCode : Nat
  body : Json
  upstreamCall : Option Payload

/-- The body `JSON.stringify({ error: msg })`. -/
def errObj (msg : String) : Json := Json.obj [("error", Json.str msg)]

/-- An early-return error result, produced before the upstream call. -/
def errResult (code : Nat) (msg : String) : HandlerResult :=
  { statusCode := code, body := errObj msg, upstreamCall := none }

/-- The chain `result.candidates?.[0]` . -/
def firstCandidate (res : GeminiResult) : Option Candidate :=
  res.candidates.bind List.head?

/-- The chain `candidate?.content?.parts?.[0]?.text` . -/
def extractText (res : GeminiResult) : Option String :=
  ((((firstCandidate res).bind Candidate.content).bind Content.parts).bind
    List.head?).bind Part.text

/-- The expression `candidate?.groundingMetadata?.groundingAttributions || []` . -/
def extractSources (res : GeminiResult) : List Json :=
  (((firstCandidate res).bind Candidate.groundingMetadata).bind
    GroundingMetadata.groundingAttributions).getD []

/-- Steps 5–6 of both revisions: the fetch, `response.ok` dispatch, JSON
parse of the success body, text extraction, and the catch-all.  Identical
in the two revisions. -/
def callUpstream (p : Payload) (up : Upstream) : HandlerResult :=
  match up with
  | .throws =>
    { statusCode := 500,
      body := errObj "Internal server error during AI generation.",
      upstreamCall := some p }
  | .responds status textBody jsonBody =>
    if !respOk status then
      { statusCode := status,
        body := errObj ("Gemini API Error: " ++ textBody),
        upstreamCall := some p }
    else
      match jsonBody with
      | none =>
        { statusCode := 500,
          body := errObj "Internal server error during AI generation.",
          upstreamCall := some p }
      | some result =>
        match extractText result with
        | none =>
          { statusCode := 500,
            body := errObj "AI failed to generate content. This might be due to safety settings.",
            upstreamCall := some p }
        | some generatedText =>
          if generatedText.isEmpty then
            { statusCode := 500,
              body := errObj "AI failed to generate content. This might be due to safety settings.",
              upstreamCall := some p }
          else
            { statusCode := 200,
              body := Json.obj [("text", Json.str generatedText),
                                ("sources", Json.arr (extractSources result))],
              upstreamCall := some p }

namespace Functions

/-- The markdown formatting rule appended to every system prompt of the
later revision. -/
def formattingRule : String :=
  "Do not use Markdown, headers, lists, or asterisks for bolding. Respond in plain, natural language paragraphs, separated by a single newline."

/-- The chart-data block for a partner, with its label ("PARTNER 1" or
"PARTNER 2"). -/
def chartBlock (label : String) (bd : BirthDetails) : String :=
  "\n--- CHART DATA (" ++ label ++ ") ---\n" ++
  "Name: " ++ orNA bd.name ++ "\n" ++
  "DOB: " ++ jstr bd.dob ++ "\n" ++
  "TOB: " ++ jstr bd.tob ++ "\n" ++
  "City: " ++ jstr bd.city ++ "\n" ++
  "--- END CHART DATA (" ++ label ++ ") ---"

/-- The value of `chartStringP1` computed before the template chain. -/
def chartStringP1 (c : ClientData) : String :=
  match c.birthDetailsPartner1 with
  | none => ""
  | some bd => chartBlock "PARTNER 1" bd

/-- The matching system prompt. -/
def matchingSystem : String :=
  "You are an expert Vedic astrologer specializing in Kundali Matching (Ashtakoot Milan). Analyze the birth charts of both individuals. Provide a compatibility score (Guna Milan) out of 36. Then, provide a detailed paragraph for each of the 8 Kootas (Varna, Vasya, Tara, Yoni, Graha Maitri, Gana, Bhakoot, Nadi). Finally, give a concluding summary of the match, highlighting strengths, weaknesses, and a final verdict (e.g., Excellent, Good, Average, Challenging). " ++ formattingRule

/-- The matching user prompt before chart data is appended. -/
def matchingUserBase : String :=
  "Generate a full Kundali matching report for Partner 1 and Partner 2 based on their chart data."

/-- The health system prompt. -/
def healthSystem : String :=
  "You are a professional medical astrologer. Analyze the provided birth chart data. Focus your response on the native's innate vitality, potential physical strengths and imbalances (especially those related to the 6th house, Sun, and Moon placements), and suggest holistic well-being practices. Be encouraging and focus on preventative care. " ++ formattingRule

/-- The health user prompt before chart data is appended. -/
def healthUserBase (userQuery : Option String) : String :=
  "Generate a comprehensive health profile based on this data. Specific health inquiry: " ++ orNA userQuery ++ "."

/-- The follow-up system prompt. -/
def followUpSystem : String :=
  "You are a highly contextual astrology consultant. The user has provided their original chart data, the full previous reading, and a new follow-up question. Use the full context to provide a focused and detailed answer to their follow-up question. Do not repeat the previous reading content. " ++ formattingRule

/-- The follow-up user prompt before chart data is appended. -/
def followUpUserBase (previousReading userQuery : Option String) : String :=
  "Based on the following previous reading: \"" ++ jstr previousReading ++
  "\", and the user's natal chart, answer this follow-up question: \"" ++ jstr userQuery ++ "\"."

/-- The annual-forecast system prompt for a year. -/
def annualSystem (yearInput : Option String) : String :=
  "You are an expert annual forecaster specializing in Solar Return charts and major transits. Analyze the natal chart for the year " ++ jstr yearInput ++ ". Focus on major themes, areas of opportunity (Jupiter/Venus transits), and areas requiring caution (Saturn/Mars transits) for the native during that period. " ++ formattingRule

/-- The annual-forecast user prompt before chart data is appended. -/
def annualUserBase (yearInput : Option String) : String :=
  "Generate the annual forecast for the year " ++ jstr yearInput ++ " based on the chart data."

/-- The daily-horoscope system prompt. -/
def dailySystem : String :=
  "You are a concise and insightful astrologer. Provide a 3-paragraph daily horoscope for the given Sun Sign for today. Focus on love, career, and health. " ++ formattingRule

/-- The daily-horoscope user prompt. -/
def dailyUserBase (zodiacSign : Option String) : String :=
  "Generate today's daily horoscope for " ++ jstr zodiacSign ++ "."

/-- The numerology system prompt. -/
def numerologySystem : String :=
  "You are an expert numerologist. Analyze the user's full name and date of birth. Calculate and provide a detailed explanation for their:\n1.  Life Path Number (from DOB)\n2.  Destiny (or Expression) Number (from full name)\n3.  Soul Urge (or Heart's Desire) Number (from vowels in name)\nProvide a final summary paragraph. " ++ formattingRule

/-- The numerology user prompt (numerologyDetails validated before use). -/
def numerologyUserBase (nd : NumerologyDetails) : String :=
  "Generate a full numerology report for:\nFull Name: " ++ jstr nd.name ++
  "\nDate of Birth: " ++ jstr nd.dob

/-- The default natal system prompt. -/
def natalSystem : String :=
  "You are a world-class, insightful astrologer. Generate a comprehensive Natal Chart Overview, covering the native's sun, moon, and rising sign, along with key planetary aspects that define their personality, career approach, and emotional nature. Keep the tone warm and empowering. " ++ formattingRule

/-- The default natal user prompt before chart data is appended. -/
def natalUserBase (userQuery : Option String) : String :=
  "Generate the full natal chart reading. Specific focus if any: " ++ orNA userQuery ++ "."

/-- The try-block of the later revision up to the point of the fetch:
the readingType check, the type-specific validations, the template chain,
and the final `userPrompt = userPrompt + chartStringP1 + chartStringP2`
combination.  Returns the 400 early return or the composed payload.
The components of the quadruple are the values of the mutable variables
`systemPrompt`, `userPrompt` (before combination), `chartStringP1` and
`chartStringP2` at the end of the chain. -/
def routeAux (c : ClientData) :
    Except (Nat × String) (String × String × String × String) :=
  if !truthy c.readingType then
    .error (400, "Invalid request: Missing required readingType.")
  else
    if c.readingType = some "matching" then
      match c.birthDetailsPartner2 with
      | none =>
        .error (400, "Invalid request: Missing required birth details for Partner 2 for matching.")
      | some bd2 =>
        if !truthy bd2.dob || !truthy bd2.tob || !truthy bd2.city then
          .error (400, "Invalid request: Missing required birth details for Partner 2 for matching.")
        else
          .ok (matchingSystem, matchingUserBase, chartStringP1 c, chartBlock "PARTNER 2" bd2)
    else if c.readingType = some "health" then
      .ok (healthSystem, healthUserBase c.userQuery, chartStringP1 c, "")
    else if truthy c.previousReading && truthy c.userQuery then
      .ok (followUpSystem, followUpUserBase c.previousReading c.userQuery, chartStringP1 c, "")
    else if truthy c.yearInput then
      .ok (annualSystem c.yearInput, annualUserBase c.yearInput, chartStringP1 c, "")
    else if c.readingType = some "daily_horoscope" then
      .ok (dailySystem, dailyUserBase c.zodiacSign, "", "")
    else if c.readingType = some "numerology" then
      match c.numerologyDetails with
      | none =>
        .error (400, "Invalid request: Missing required name and DOB for numerology.")
      | some nd =>
        if !truthy nd.name || !truthy nd.dob then
          .error (400, "Invalid request: Missing required name and DOB for numerology.")
        else
          .ok (numerologySystem, numerologyUserBase nd, "", "")
    else
      .ok (natalSystem, natalUserBase c.userQuery, chartStringP1 c, "")

/-- The composed prompt pair: `userPrompt + chartStringP1 + chartStringP2`. -/
def route (c : ClientData) : Except (Nat × String) Payload :=
  match routeAux c with
  | .error e => .error e
  | .ok (sys, userBase, p1, p2) =>
    .ok { systemPrompt := sys, userPrompt := userBase ++ p1 ++ p2 }

/-- The later revision's `exports.handler`, as a function of the API key
(the environment variable), the inbound event and the upstream behaviour. -/
def handler (apiKey : Option String) (event : Event) (up : Upstream) :
    HandlerResult :=
  if !truthy apiKey then
    errResult 500 "Server configuration error: GEMINI_API_KEY is missing. Please set it as an environment variable in your Netlify settings."
  else if event.httpMethod ≠ "POST" || event.body.isNone then
    errResult 400 "Invalid request method or missing body."
  else
    match event.body with
    | none => errResult 400 "Invalid request method or missing body."
    | some .malformed => errResult 400 "Invalid JSON body."
    | some (.parsed clientData) =>
      match route clientData with
      | .error (code, msg) => errResult code msg
      | .ok payload => callUpstream payload up

/-- The seven templates of the later revision, in the source's precedence
order. -/
inductive Template where
  | matching | health | followUp | annual | daily | numerology | natal
deriving Repr, DecidableEq

/-- The raw branch condition of each template, exactly as written in the
source's if/else chain (the natal default's condition is the vacuous
`else`). -/
def branchCond (c : ClientData) : Template → Bool
  | .matching => c.readingType = some "matching"
  | .health => c.readingType = some "health"
  | .followUp => truthy c.previousReading && truthy c.userQuery
  | .annual => truthy c.yearInput
  | .daily => c.readingType = some "daily_horoscope"
  | .numerology => c.readingType = some "numerology"
  | .natal => true

/-- Position of each template in the source's fixed precedence order. -/
def precIdx : Template → Nat
  | .matching => 0
  | .health => 1
  | .followUp => 2
  | .annual => 3
  | .daily => 4
  | .numerology => 5
  | .natal => 6

/-- A template is the selected one when its raw condition holds and no
template earlier in the precedence order has a true condition. -/
def selected (c : ClientData) (t : Template) : Prop :=
  branchCond c t = true ∧
  ∀ t' : Template, branchCond c t' = true → precIdx t ≤ precIdx t'

/-- The template the later revision's if/else chain selects. -/
def selectTemplate (c : ClientData) : Template :=
  if c.readingType = some "matching" then .matching
  else if c.readingType = some "health" then .health
  else if truthy c.previousReading && truthy c.userQuery then .followUp
  else if truthy c.yearInput then .annual
  else if c.readingType = some "daily_horoscope" then .daily
  else if c.readingType = some "numerology" then .numerology
  else .natal

/-- The prompt pair a given template alone produces for a request, chart
blocks included (the matching case reads partner 2 through a default that
is never reached when the request validated). -/
def promptsFor (t : Template) (c : ClientData) : Payload :=
  match t with
  | .matching =>
    { systemPrompt := matchingSystem,
      userPrompt := matchingUserBase ++ chartStringP1 c ++
        chartBlock "PARTNER 2" ((c.birthDetailsPartner2).getD {}) }
  | .health =>
    { systemPrompt := healthSystem,
      userPrompt := healthUserBase c.userQuery ++ chartStringP1 c }
  | .followUp =>
    { systemPrompt := followUpSystem,
      userPrompt := followUpUserBase c.previousReading c.userQuery ++ chartStringP1 c }
  | .annual =>
    { systemPrompt := annualSystem c.yearInput,
      userPrompt := annualUserBase c.yearInput ++ chartStringP1 c }
  | .daily =>
    { systemPrompt := dailySystem,
      userPrompt := dailyUserBase c.zodiacSign }
  | .numerology =>
    { systemPrompt := numerologySystem,
      userPrompt := numerologyUserBase ((c.numerologyDetails).getD {}) }
  | .natal =>
    { systemPrompt := natalSystem,
      userPrompt := natalUserBase c.userQuery ++ chartStringP1 c }

end Functions

namespace Legacy

/-- The older revision's chart-data block (no partner label). -/
def chartString (bd : BirthDetails) : String :=
  "\n--- CHART DATA ---\n" ++
  "Name: " ++ orNA bd.name ++ "\n" ++
  "DOB: " ++ jstr bd.dob ++ "\n" ++
  "TOB: " ++ jstr bd.tob ++ "\n" ++
  "City: " ++ jstr bd.city ++ "\n" ++
  "--- END CHART DATA ---"

/-- The older revision's health system prompt (no formatting rule). -/
def healthSystem : String :=
  "You are a professional medical astrologer. Analyze the provided birth chart data. Focus your response on the native's innate vitality, potential physical strengths and imbalances (especially those related to the 6th house, Sun, and Moon placements), and suggest holistic well-being practices. Be encouraging and focus on preventative care."

/-- The older revision's follow-up system prompt. -/
def followUpSystem : String :=
  "You are a highly contextual astrology consultant. The user has provided their original chart data, the full previous reading, and a new follow-up question. Use the full context to provide a focused and detailed answer to their follow-up question. Do not repeat the previous reading content."

/-- The older revision's annual-forecast system prompt. -/
def annualSystem (yearInput : Option String) : String :=
  "You are an expert annual forecaster specializing in Solar Return charts and major transits. Analyze the natal chart for the year " ++ jstr yearInput ++ ". Focus on major themes, areas of opportunity (Jupiter/Venus transits), and areas requiring caution (Saturn/Mars transits) for the native during that period."

/-- The older revision's default natal system prompt. -/
def natalSystem : String :=
  "You are a world-class, insightful astrologer. Generate a comprehensive Natal Chart Overview, covering the native's sun, moon, and rising sign, along with key planetary aspects that define their personality, career approach, and emotional nature. Keep the tone warm and empowering."

/-- The older revision's try-block up to the fetch: the birthDetails
validation (required for every request), the four-way template chain, and
`userPrompt = userPrompt + chartString`. -/
def route (c : ClientData) : Except (Nat × String) Payload :=
  match c.birthDetails with
  | none =>
    .error (400, "Invalid request: Missing required birth details (dob, tob, city).")
  | some bd =>
    if !truthy bd.dob || !truthy bd.tob || !truthy bd.city then
      .error (400, "Invalid request: Missing required birth details (dob, tob, city).")
    else
      let base :=
        if c.readingType = some "health" then
          (healthSystem,
           "Generate a comprehensive health profile based on this data. Specific health inquiry: " ++ orNA c.userQuery ++ ".")
        else if truthy c.previousReading && truthy c.userQuery then
          (followUpSystem,
           "Based on the following previous reading: \"" ++ jstr c.previousReading ++
           "\", and the user's natal chart, answer this follow-up question: \"" ++ jstr c.userQuery ++ "\".")
        else if truthy c.yearInput then
          (annualSystem c.yearInput,
           "Generate the annual forecast for the year " ++ jstr c.yearInput ++ " based on the chart data.")
        else
          (natalSystem,
           "Generate the full natal chart reading. Specific focus if any: " ++ orNA c.userQuery ++ ".")
      .ok { systemPrompt := base.1, userPrompt := base.2 ++ chartString bd }

/-- The older revision's `exports.handler`. -/
def handler (apiKey : Option String) (event : Event) (up : Upstream) :
    HandlerResult :=
  if !truthy apiKey then
    errResult 500 "Server configuration error: GEMINI_API_KEY is missing. Please set it as an environment variable in your Netlify settings."
  else if event.httpMethod ≠ "POST" || event.body.isNone then
    errResult 400 "Invalid request method or missing body."
  else
    match event.body with
    | none => errResult 400 "Invalid request method or missing body."
    | some .malformed => errResult 400 "Invalid JSON body."
    | some (.parsed clientData) =>
      match route clientData with
      | .error (code, msg) => errResult code msg
      | .ok payload => callUpstream payload up

end Legacy

/-- One string occurs inside another: the character data decomposes around
the pattern's character data. -/
def containsStr (s pat : String) : Prop :=
  ∃ pre post : List Char, s.data = pre ++ pat.data ++ post

/-- Whether `pat` is a prefix of `s`, on character lists. -/
def isPrefixChars : List Char → List Char → Bool
  | [], _ => true
  | _ :: _, [] => false
  | a :: as, b :: bs => a = b && isPrefixChars as bs

/-- Whether `pat` occurs inside `s`, on character lists. -/
def containsChars (pat : List Char) : List Char → Bool
  | [] => isPrefixChars pat []
  | s@(_ :: rest) => isPrefixChars pat s || containsChars pat rest

/-- Boolean substring test on strings. -/
def containsB (s pat : String) : Bool := containsChars pat.data s.data

/-- The source's matching validation guard, un-negated: partner 2 is
present with truthy dob, tob and city. -/
def bd2Complete : Option BirthDetails → Bool
  | none => false
  | some bd => truthy bd.dob && truthy bd.tob && truthy bd.city

/-- The source's numerology validation guard, un-negated: the details are
present with truthy name and dob. -/
def numComplete : Option NumerologyDetails → Bool
  | none => false
  | some nd => truthy nd.name && truthy nd.dob

/-- Whether an Except is a success. -/
def exceptOk {ε α : Type} : Except ε α → Bool
  | .ok _ => true
  | .error _ => false

/-- A daily-horoscope request with no zodiacSign (C1's probe input). -/
def noSignDaily : ClientData := { readingType := some "daily_horoscope" }

/-- A matching request with no partner details at all. -/
def bareMatching : ClientData := { readingType := some "matching" }

/-- A numerology request with no numerologyDetails. -/
def bareNumerology : ClientData := { readingType := some "numerology" }

/-- A health request carrying no birth details in any field. -/
def bareHealth : ClientData := { readingType := some "health" }

/-- A natal request (the default template) with no optional fields. -/
def bareNatal : ClientData := { readingType := some "natal" }

/-- A follow-up request: previous reading and a new query, natal type. -/
def followUpReq : ClientData :=
  { readingType := some "natal", previousReading := some "Your chart shows strong Jupiter.",
    userQuery := some "What about my career?" }

/-- Complete birth details used by the concrete matching request. -/
def fullBD : BirthDetails :=
  { name := some "Asha", dob := some "1990-05-01", tob := some "04:30",
    city := some "Mumbai" }

/-- A matching request with complete details for both partners. -/
def fullMatching : ClientData :=
  { readingType := some "matching", birthDetailsPartner1 := some fullBD,
    birthDetailsPartner2 := some fullBD }

/-- A POST event carrying a parsed body. -/
def postEv (c : ClientData) : Event :=
  { httpMethod := "POST", body := some (Body.parsed c) }

/-- An upstream success document with one candidate holding one part. -/
def okResult : GeminiResult :=
  { candidates := some [{ content := some { parts := some [{ text := some "The stars align." }] },
                          groundingMetadata := none }] }

/-- An upstream success document with an empty candidates array. -/
def emptyResult : GeminiResult := { candidates := some [] }

theorem isPrefixChars_eq (pat s : List Char) (h : isPrefixChars pat s = true) :
    ∃ rest, s = pat ++ rest := by
  induction pat generalizing s with
  | nil => exact ⟨s, rfl⟩
  | cons a as ih =>
    cases s with
    | nil => simp [isPrefixChars] at h
    | cons b bs =>
      simp only [isPrefixChars, Bool.and_eq_true, decide_eq_true_eq] at h
      obtain ⟨rest, hrest⟩ := ih bs h.2
      exact ⟨rest, by simp [h.1, hrest]⟩

theorem containsChars_split (pat s : List Char) (h : containsChars pat s = true) :
    ∃ pre post, s = pre ++ pat ++ post := by
  induction s with
  | nil =>
    obtain ⟨rest, hrest⟩ := isPrefixChars_eq pat [] h
    exact ⟨[], rest, by simp [← hrest]⟩
  | cons b bs ih =>
    simp only [containsChars, Bool.or_eq_true] at h
    rcases h with h | h
    · obtain ⟨rest, hrest⟩ := isPrefixChars_eq pat (b :: bs) h
      exact ⟨[], rest, by simp [hrest]⟩
    · obtain ⟨pre, post, hsplit⟩ := ih h
      exact ⟨b :: pre, post, by simp [hsplit]⟩

/-- Soundness of the boolean substring test. -/
theorem containsStr_of_b {s pat : String} (h : containsB s pat = true) :
    containsStr s pat :=
  containsChars_split pat.data s.data h

/-- A string built by appending the pattern between two others contains it. -/
theorem containsStr_append (a pat b : String) :
    containsStr (a ++ pat ++ b) pat :=
  ⟨a.data, b.data, by simp [String.data_append]⟩

/-- A string ending in the pattern contains it. -/
theorem containsStr_append_right (a pat : String) :
    containsStr (a ++ pat) pat :=
  ⟨a.data, [], by simp [String.data_append]⟩

namespace Functions

theorem precIdx_inj : ∀ t t' : Template, precIdx t = precIdx t' → t = t' := by
  intro t t' h
  cases t <;> cases t' <;> simp_all [precIdx]

theorem selected_unique {c : ClientData} {t t' : Template}
    (h : selected c t) (h' : selected c t') : t = t' :=
  precIdx_inj _ _ (Nat.le_antisymm (h.2 t' h'.1) (h'.2 t h.1))

theorem selected_selectTemplate (c : ClientData) :
    selected c (selectTemplate c) := by
  unfold selectTemplate
  split
  next h1 =>
    exact ⟨by simp [branchCond, h1], fun t' _ => Nat.zero_le _⟩
  next h1 =>
    split
    next h2 =>
      refine ⟨by simp [branchCond, h2], ?_⟩
      intro t' ht'; cases t' <;> simp_all [branchCond, precIdx]
    next h2 =>
      split
      next h3 =>
        refine ⟨by simpa [branchCond] using h3, ?_⟩
        intro t' ht'; cases t' <;> simp_all [branchCond, precIdx]
      next h3 =>
        split
        next h4 =>
          refine ⟨by simpa [branchCond] using h4, ?_⟩
          intro t' ht'; cases t' <;> simp_all [branchCond, precIdx]
        next h4 =>
          split
          next h5 =>
            refine ⟨by simp [branchCond, h5], ?_⟩
            intro t' ht'; cases t' <;> simp_all [branchCond, precIdx]
          next h5 =>
            split
            next h6 =>
              refine ⟨by simp [branchCond, h6], ?_⟩
              intro t' ht'; cases t' <;> simp_all [branchCond, precIdx]
            next h6 =>
              refine ⟨rfl, ?_⟩
              intro t' ht'; cases t' <;> simp_all [branchCond, precIdx]

theorem routeAux_promptsFor {c : ClientData} {sys ub p1 p2 : String}
    (h : routeAux c = .ok (sys, ub, p1, p2)) :
    promptsFor (selectTemplate c) c =
      { systemPrompt := sys, userPrompt := ub ++ p1 ++ p2 } := by
  unfold routeAux at h
  split at h
  · simp at h
  next h0 =>
    split at h
    next h1 =>
      split at h
      next hbd2 => simp at h
      next bd2 hbd2 =>
        split at h
        · simp at h
        next hv =>
          simp only [Except.ok.injEq, Prod.mk.injEq] at h
          obtain ⟨rfl, rfl, rfl, rfl⟩ := h
          simp [promptsFor, selectTemplate, h1, hbd2]
    next h1 =>
      split at h
      next h2 =>
        simp only [Except.ok.injEq, Prod.mk.injEq] at h
        obtain ⟨rfl, rfl, rfl, rfl⟩ := h
        simp [promptsFor, selectTemplate, h1, h2]
      next h2 =>
        split at h
        next h3 =>
          simp only [Except.ok.injEq, Prod.mk.injEq] at h
          obtain ⟨rfl, rfl, rfl, rfl⟩ := h
          simp [promptsFor, selectTemplate, h1, h2, h3]
        next h3 =>
          split at h
          next h4 =>
            simp only [Except.ok.injEq, Prod.mk.injEq] at h
            obtain ⟨rfl, rfl, rfl, rfl⟩ := h
            simp [promptsFor, selectTemplate, h1, h2, h3, h4]
          next h4 =>
            split at h
            next h5 =>
              simp only [Except.ok.injEq, Prod.mk.injEq] at h
              obtain ⟨rfl, rfl, rfl, rfl⟩ := h
              simp [promptsFor, selectTemplate, h1, h2, h3, h4, h5]
            next h5 =>
              split at h
              next h6 =>
                split at h
                next hnd => simp at h
                next nd hnd =>
                  split at h
                  · simp at h
                  next hv =>
                    simp only [Except.ok.injEq, Prod.mk.injEq] at h
                    obtain ⟨rfl, rfl, rfl, rfl⟩ := h
                    simp [promptsFor, selectTemplate, h1, h2, h3, h4, h5, h6, hnd]
              next h6 =>
                simp only [Except.ok.injEq, Prod.mk.injEq] at h
                obtain ⟨rfl, rfl, rfl, rfl⟩ := h
                simp [promptsFor, selectTemplate, h1, h2, h3, h4, h5, h6]

theorem route_ok_promptsFor {c : ClientData} {p : Payload}
    (h : route c = .ok p) : p = promptsFor (selectTemplate c) c := by
  unfold route at h
  cases haux : routeAux c with
  | error e => rw [haux] at h; cases h
  | ok q =>
    obtain ⟨sys, ub, p1, p2⟩ := q
    rw [haux] at h
    simp only [Except.ok.injEq] at h
    rw [← h]
    exact (routeAux_promptsFor haux).symm

theorem routeAux_error_code {c : ClientData} {code : Nat} {msg : String}
    (h : routeAux c = .error (code, msg)) : code = 400 := by
  unfold routeAux at h
  repeat' split at h
  all_goals simp_all

theorem route_error_code {c : ClientData} {code : Nat} {msg : String}
    (h : route c = .error (code, msg)) : code = 400 := by
  unfold route at h
  cases haux : routeAux c with
  | ok q => obtain ⟨s, u, a, b⟩ := q; rw [haux] at h; cases h
  | error e =>
    rw [haux] at h
    cases h
    exact routeAux_error_code haux

theorem handler_shape (key : Option String) (ev : Event) (up : Upstream) :
    (∃ code msg, (code = 400 ∨ code = 500) ∧
      handler key ev up = errResult code msg) ∨
    (∃ c p, ev.body = some (.parsed c) ∧ route c = .ok p ∧
      handler key ev up = callUpstream p up) := by
  unfold handler
  split
  · exact .inl ⟨500, _, .inr rfl, rfl⟩
  · split
    · exact .inl ⟨400, _, .inl rfl, rfl⟩
    · split
      · exact .inl ⟨400, _, .inl rfl, rfl⟩
      · exact .inl ⟨400, _, .inl rfl, rfl⟩
      next clientData heq =>
        split
        next code msg hroute =>
          exact .inl ⟨code, msg, .inl (route_error_code hroute), rfl⟩
        next payload hroute =>
          exact .inr ⟨clientData, payload, heq, hroute, rfl⟩

end Functions

theorem callUpstream_upstreamCall (p : Payload) (up : Upstream) :
    (callUpstream p up).upstreamCall = some p := by
  unfold callUpstream
  repeat' split
  all_goals rfl

theorem callUpstream_mirror (p : Payload) {st : Nat} (tb : String)
    (jb : Option GeminiResult) (hok : respOk st = false) :
    callUpstream p (.responds st tb jb) =
      { statusCode := st, body := errObj ("Gemini API Error: " ++ tb),
        upstreamCall := some p } := by
  simp [callUpstream, hok]

theorem callUpstream_noContent (p : Payload) {st : Nat} (tb : String)
    {res : GeminiResult} (hok : respOk st = true)
    (htx : truthy (extractText res) = false) :
    callUpstream p (.responds st tb (some res)) =
      { statusCode := 500,
        body := errObj "AI failed to generate content. This might be due to safety settings.",
        upstreamCall := some p } := by
  cases h : extractText res with
  | none => simp [callUpstream, hok, h]
  | some s =>
    rw [h] at htx
    simp only [truthy, Bool.not_eq_false'] at htx
    simp [callUpstream, hok, h, htx]

theorem callUpstream_success (p : Payload) {st : Nat} (tb : String)
    {res : GeminiResult} {s : String} (hok : respOk st = true)
    (htx : extractText res = some s) (hs : s.isEmpty = false) :
    callUpstream p (.responds st tb (some res)) =
      { statusCode := 200,
        body := Json.obj [("text", Json.str s),
                          ("sources", Json.arr (extractSources res))],
        upstreamCall := some p } := by
  simp [callUpstream, hok, htx, hs]

theorem callUpstream_status200 (p : Payload) (up : Upstream) :
    (callUpstream p up).statusCode = 200 ↔
      ∃ st tb res, up = .responds st tb (some res) ∧ respOk st = true ∧
        truthy (extractText res) = true := by
  cases up with
  | throws => simp [callUpstream]
  | responds st tb jb =>
    by_cases hok : respOk st = true
    · cases jb with
      | none => simp [callUpstream, hok]
      | some res =>
        cases htx : extractText res with
        | none => simp [callUpstream, hok, htx, truthy]
        | some s =>
          by_cases hs : s.isEmpty = true
          · simp [callUpstream, hok, htx, hs, truthy]
          · simp only [Bool.not_eq_true] at hs
            rw [callUpstream_success p tb hok htx hs]
            constructor
            · intro _
              exact ⟨st, tb, res, rfl, hok, by simp [truthy, htx, hs]⟩
            · intro _
              rfl
    · have hok' : respOk st = false := by simpa using hok
      have hne : st ≠ 200 := by
        intro h
        subst h
        simp [respOk] at hok'
      rw [callUpstream_mirror p tb jb hok']
      constructor
      · intro h
        exact absurd h hne
      · rintro ⟨st', tb', res', heq, hok2, -⟩
        injection heq with e1 e2 e3
        subst e1
        exact absurd hok2 hok

theorem callUpstream_shape (p : Payload) (up : Upstream) :
    ((callUpstream p up).statusCode = 200 ∧
      ∃ t srcs, (callUpstream p up).body =
        Json.obj [("text", Json.str t), ("sources", Json.arr srcs)]) ∨
    ((callUpstream p up).statusCode ≠ 200 ∧
      ∃ msg, (callUpstream p up).body = errObj msg) := by
  cases up with
  | throws =>
    exact .inr ⟨by simp [callUpstream], "Internal server error during AI generation.", rfl⟩
  | responds st tb jb =>
    by_cases hok : respOk st = true
    · cases jb with
      | none =>
        refine .inr ⟨?_, "Internal server error during AI generation.", ?_⟩ <;>
          simp [callUpstream, hok]
      | some res =>
        cases htx : extractText res with
        | none =>
          refine .inr ⟨?_, "AI failed to generate content. This might be due to safety settings.", ?_⟩ <;>
            simp [callUpstream, hok, htx]
        | some s =>
          by_cases hs : s.isEmpty = true
          · refine .inr ⟨?_, "AI failed to generate content. This might be due to safety settings.", ?_⟩ <;>
              simp [callUpstream, hok, htx, hs]
          · simp only [Bool.not_eq_true] at hs
            rw [callUpstream_success p tb hok htx hs]
            exact .inl ⟨rfl, s, extractSources res, rfl⟩
    · have hok' : respOk st = false := by simpa using hok
      have hne : st ≠ 200 := by
        intro h
        subst h
        simp [respOk] at hok'
      rw [callUpstream_mirror p tb jb hok']
      exact .inr ⟨hne, "Gemini API Error: " ++ tb, rfl⟩

namespace Functions

theorem routeAux_parts {c : ClientData} {sys ub p1 p2 : String}
    (h : routeAux c = .ok (sys, ub, p1, p2)) :
    (selectTemplate c = .matching ∧ p1 = chartStringP1 c ∧
      ∃ bd2, c.birthDetailsPartner2 = some bd2 ∧
        p2 = chartBlock "PARTNER 2" bd2) ∨
    ((selectTemplate c = .health ∨ selectTemplate c = .followUp ∨
      selectTemplate c = .annual ∨ selectTemplate c = .natal) ∧
      p1 = chartStringP1 c ∧ p2 = "") ∨
    ((selectTemplate c = .daily ∨ selectTemplate c = .numerology) ∧
      p1 = "" ∧ p2 = "") := by
  unfold routeAux at h
  split at h
  · simp at h
  next h0 =>
    split at h
    next h1 =>
      split at h
      next hbd2 => simp at h
      next bd2 hbd2 =>
        split at h
        · simp at h
        next hv =>
          simp only [Except.ok.injEq, Prod.mk.injEq] at h
          obtain ⟨rfl, rfl, rfl, rfl⟩ := h
          exact .inl ⟨by simp [selectTemplate, h1], rfl, bd2, hbd2, rfl⟩
    next h1 =>
      split at h
      next h2 =>
        simp only [Except.ok.injEq, Prod.mk.injEq] at h
        obtain ⟨rfl, rfl, rfl, rfl⟩ := h
        exact .inr (.inl ⟨.inl (by simp [selectTemplate, h1, h2]), rfl, rfl⟩)
      next h2 =>
        split at h
        next h3 =>
          simp only [Except.ok.injEq, Prod.mk.injEq] at h
          obtain ⟨rfl, rfl, rfl, rfl⟩ := h
          exact .inr (.inl ⟨.inr (.inl (by simp [selectTemplate, h1, h2, h3])), rfl, rfl⟩)
        next h3 =>
          split at h
          next h4 =>
            simp only [Except.ok.injEq, Prod.mk.injEq] at h
            obtain ⟨rfl, rfl, rfl, rfl⟩ := h
            exact .inr (.inl ⟨.inr (.inr (.inl (by simp [selectTemplate, h1, h2, h3, h4]))), rfl, rfl⟩)
          next h4 =>
            split at h
            next h5 =>
              simp only [Except.ok.injEq, Prod.mk.injEq] at h
              obtain ⟨rfl, rfl, rfl, rfl⟩ := h
              exact .inr (.inr ⟨.inl (by simp [selectTemplate, h1, h2, h3, h4, h5]), rfl, rfl⟩)
            next h5 =>
              split at h
              next h6 =>
                split at h
                next hnd => simp at h
                next nd hnd =>
                  split at h
                  · simp at h
                  next hv =>
                    simp only [Except.ok.injEq, Prod.mk.injEq] at h
                    obtain ⟨rfl, rfl, rfl, rfl⟩ := h
                    exact .inr (.inr ⟨.inr (by simp [selectTemplate, h1, h2, h3, h4, h5, h6]), rfl, rfl⟩)
              next h6 =>
                simp only [Except.ok.injEq, Prod.mk.injEq] at h
                obtain ⟨rfl, rfl, rfl, rfl⟩ := h
                exact .inr (.inl ⟨.inr (.inr (.inr (by simp [selectTemplate, h1, h2, h3, h4, h5, h6]))), rfl, rfl⟩)

theorem routeAux_error_iff (c : ClientData) :
    exceptOk (routeAux c) = false ↔
      (truthy c.readingType = false ∨
       (c.readingType = some "matching" ∧
         bd2Complete c.birthDetailsPartner2 = false) ∨
       (c.readingType = some "numerology" ∧
         (truthy c.previousReading && truthy c.userQuery) = false ∧
         truthy c.yearInput = false ∧
         numComplete c.numerologyDetails = false)) := by
  unfold routeAux
  repeat' split
  all_goals
    simp_all [exceptOk, bd2Complete, numComplete, Bool.or_eq_true,
      Bool.not_eq_true', Bool.and_eq_false_iff]
  all_goals
    intros
    simp_all

theorem exceptOk_route (c : ClientData) :
    exceptOk (route c) = exceptOk (routeAux c) := by
  unfold route
  cases h : routeAux c with
  | error e => simp [exceptOk]
  | ok q =>
    obtain ⟨a, b, d, e⟩ := q
    simp [exceptOk]

end Functions

/-- C3: validation is ordered and short-circuiting in the later revision's
handler.  A falsy API credential yields the 500 configuration error
regardless of method, body presence or JSON validity; with the credential
present, a non-POST method or missing body yields 400; then a body that
fails to parse yields 400; then a missing (falsy) readingType yields 400.
Each of these results is an `errResult`, whose upstreamCall is `none`, so
the upstream API is never called on any of these paths. -/
theorem C3_validation_order (key : Option String) (ev : Event) (up : Upstream) :
    (truthy key = false →
      Functions.handler key ev up =
        errResult 500 "Server configuration error: GEMINI_API_KEY is missing. Please set it as an environment variable in your Netlify settings.") ∧
    (truthy key = true → ev.httpMethod ≠ "POST" ∨ ev.body = none →
      Functions.handler key ev up =
        errResult 400 "Invalid request method or missing body.") ∧
    (truthy key = true → ev.httpMethod = "POST" → ev.body = some Body.malformed →
      Functions.handler key ev up = errResult 400 "Invalid JSON body.") ∧
    (∀ c : ClientData, truthy key = true → ev.httpMethod = "POST" →
      ev.body = some (Body.parsed c) → truthy c.readingType = false →
      Functions.handler key ev up =
        errResult 400 "Invalid request: Missing required readingType.") ∧
    (∀ code msg, Functions.handler key ev up = errResult code msg →
      (Functions.handler key ev up).upstreamCall = none) := by
  refine ⟨?_, ?_, ?_, ?_, ?_⟩
  · intro hk
    simp [Functions.handler, hk]
  · intro hk hmb
    rcases hmb with hm | hb
    · simp [Functions.handler, hk, hm]
    · simp [Functions.handler, hk, hb]
  · intro hk hm hb
    simp [Functions.handler, hk, hm, hb]
  · intro c hk hm hb hrt
    simp [Functions.handler, hk, hm, hb, Functions.route, Functions.routeAux, hrt]
  · intro code msg h
    rw [h]
    rfl

/-- C3 witness: the four validation outcomes at concrete inputs. -/
theorem C3_validation_order_witness :
    Functions.handler none (postEv {}) .throws =
      errResult 500 "Server configuration error: GEMINI_API_KEY is missing. Please set it as an environment variable in your Netlify settings." ∧
    Functions.handler (some "k") { httpMethod := "GET", body := some (Body.parsed {}) } .throws =
      errResult 400 "Invalid request method or missing body." ∧
    Functions.handler (some "k") { httpMethod := "POST", body := some Body.malformed } .throws =
      errResult 400 "Invalid JSON body." ∧
    Functions.handler (some "k") (postEv {}) .throws =
      errResult 400 "Invalid request: Missing required readingType." :=
  ⟨(C3_validation_order none (postEv {}) .throws).1 rfl,
   (C3_validation_order (some "k") { httpMethod := "GET", body := some (Body.parsed {}) } .throws).2.1
     rfl (Or.inl (by decide)),
   (C3_validation_order (some "k") { httpMethod := "POST", body := some Body.malformed } .throws).2.2.1
     rfl rfl rfl,
   (C3_validation_order (some "k") (postEv {}) .throws).2.2.2.1 {} rfl rfl rfl rfl⟩

/-- C5: whenever the handler reaches the upstream call and the upstream
responds with a non-success status (respOk false), the handler mirrors the
upstream status code and returns the JSON error body whose error string is
the upstream error text with the fixed prefix, so the upstream text is
contained unmodified. -/
theorem C5_upstream_error_mirror (key : Option String) (ev : Event)
    (st : Nat) (tb : String) (jb : Option GeminiResult)
    (hst : respOk st = false)
    (hcall : (Functions.handler key ev (.responds st tb jb)).upstreamCall ≠ none) :
    (Functions.handler key ev (.responds st tb jb)).statusCode = st ∧
    (Functions.handler key ev (.responds st tb jb)).body =
      errObj ("Gemini API Error: " ++ tb) ∧
    containsStr ("Gemini API Error: " ++ tb) tb := by
  rcases Functions.handler_shape key ev (.responds st tb jb) with
    ⟨code, msg, -, heq⟩ | ⟨c, p, -, -, heq⟩
  · rw [heq] at hcall
    exact absurd rfl hcall
  · rw [heq, callUpstream_mirror p tb jb hst]
    exact ⟨rfl, rfl, "Gemini API Error: ".data, [], by simp [String.data_append]⟩

/-- C5 witness: a valid natal request against a 503 upstream. -/
theorem C5_upstream_error_mirror_witness :
    (Functions.handler (some "k") (postEv bareNatal)
      (.responds 503 "Service Unavailable" none)).statusCode = 503 ∧
    (Functions.handler (some "k") (postEv bareNatal)
      (.responds 503 "Service Unavailable" none)).body =
      errObj ("Gemini API Error: " ++ "Service Unavailable") :=
  ⟨(C5_upstream_error_mirror (some "k") (postEv bareNatal) 503 "Service Unavailable" none
      (by decide) (by decide)).1,
   (C5_upstream_error_mirror (some "k") (postEv bareNatal) 503 "Service Unavailable" none
      (by decide) (by decide)).2.1⟩

/-- C4: the handler returns 200 iff the upstream call was made and
succeeded (2xx status with a JSON body) and the first candidate's text is
present and non-empty; on 200 the body carries that text and a sources
array; and an upstream success whose extracted text is absent (empty
candidates, missing part text) or empty yields the 500 no-content error
instead. -/
theorem C4_success_iff (key : Option String) (ev : Event) (up : Upstream) :
    ((Functions.handler key ev up).statusCode = 200 ↔
      ∃ p st tb res, (Functions.handler key ev up).upstreamCall = some p ∧
        up = .responds st tb (some res) ∧ respOk st = true ∧
        truthy (extractText res) = true) ∧
    (∀ st tb res s, up = .responds st tb (some res) → respOk st = true →
      extractText res = some s → s.isEmpty = false →
      (Functions.handler key ev up).upstreamCall ≠ none →
      (Functions.handler key ev up).statusCode = 200 ∧
      (Functions.handler key ev up).body =
        Json.obj [("text", Json.str s),
                  ("sources", Json.arr (extractSources res))]) ∧
    (∀ st tb res, up = .responds st tb (some res) → respOk st = true →
      truthy (extractText res) = false →
      (Functions.handler key ev up).upstreamCall ≠ none →
      (Functions.handler key ev up).statusCode = 500 ∧
      (Functions.handler key ev up).body =
        errObj "AI failed to generate content. This might be due to safety settings.") := by
  rcases Functions.handler_shape key ev up with
    ⟨code, msg, hcode, heq⟩ | ⟨c, p, -, -, heq⟩
  · refine ⟨?_, ?_, ?_⟩
    · rw [heq]
      constructor
      · intro h
        rcases hcode with rfl | rfl <;> simp [errResult] at h
      · rintro ⟨p, st, tb, res, hcall, -⟩
        simp [errResult] at hcall
    · intro st tb res s h1 h2 h3 h4 hcall
      rw [heq] at hcall
      simp [errResult] at hcall
    · intro st tb res h1 h2 h3 hcall
      rw [heq] at hcall
      simp [errResult] at hcall
  · refine ⟨?_, ?_, ?_⟩
    · rw [heq, callUpstream_status200 p up]
      constructor
      · rintro ⟨st, tb, res, hup, hok, htx⟩
        exact ⟨p, st, tb, res, callUpstream_upstreamCall p up, hup, hok, htx⟩
      · rintro ⟨p', st, tb, res, -, hup, hok, htx⟩
        exact ⟨st, tb, res, hup, hok, htx⟩
    · intro st tb res s h1 h2 h3 h4 _
      rw [heq]
      subst h1
      rw [callUpstream_success p tb h2 h3 h4]
      exact ⟨rfl, rfl⟩
    · intro st tb res h1 h2 h3 _
      rw [heq]
      subst h1
      rw [callUpstream_noContent p tb h2 h3]
      exact ⟨rfl, rfl⟩

/-- C4 witness: a valid natal request against an upstream success with
non-empty text gets 200 with the text; one against an upstream success
with an empty candidates array gets the 500 no-content error. -/
theorem C4_success_iff_witness :
    ((Functions.handler (some "k") (postEv bareNatal)
        (.responds 200 "" (some okResult))).statusCode = 200 ∧
     (Functions.handler (some "k") (postEv bareNatal)
        (.responds 200 "" (some okResult))).body =
       Json.obj [("text", Json.str "The stars align."),
                 ("sources", Json.arr (extractSources okResult))]) ∧
    ((Functions.handler (some "k") (postEv bareNatal)
        (.responds 200 "" (some emptyResult))).statusCode = 500 ∧
     (Functions.handler (some "k") (postEv bareNatal)
        (.responds 200 "" (some emptyResult))).body =
       errObj "AI failed to generate content. This might be due to safety settings.") :=
  ⟨(C4_success_iff (some "k") (postEv bareNatal)
      (.responds 200 "" (some okResult))).2.1 200 "" okResult "The stars align."
      rfl rfl rfl rfl (by decide),
   (C4_success_iff (some "k") (postEv bareNatal)
      (.responds 200 "" (some emptyResult))).2.2 200 "" emptyResult
      rfl rfl rfl (by decide)⟩

/-- C10: the handler is total over every inbound event and upstream
behaviour (including a thrown fetch and an upstream body that is not valid
JSON, both reaching the catch-all 500): its result always carries a
numeric status code and a JSON object body holding a text-and-sources pair
when the status is 200, and an error string otherwise. -/
theorem C10_total_shape (key : Option String) (ev : Event) (up : Upstream) :
    ((Functions.handler key ev up).statusCode = 200 →
      ∃ t srcs, (Functions.handler key ev up).body =
        Json.obj [("text", Json.str t), ("sources", Json.arr srcs)]) ∧
    ((Functions.handler key ev up).statusCode ≠ 200 →
      ∃ msg, (Functions.handler key ev up).body =
        Json.obj [("error", Json.str msg)]) := by
  rcases Functions.handler_shape key ev up with
    ⟨code, msg, hcode, heq⟩ | ⟨c, p, -, -, heq⟩
  · constructor
    · intro h
      rw [heq] at h
      rcases hcode with rfl | rfl <;> simp [errResult] at h
    · intro _
      exact ⟨msg, by rw [heq]; rfl⟩
  · rcases callUpstream_shape p up with ⟨h200, t, srcs, hbody⟩ | ⟨hne, msg, hbody⟩
    · constructor
      · intro _
        exact ⟨t, srcs, by rw [heq]; exact hbody⟩
      · intro h
        rw [heq] at h
        exact absurd h200 h
    · constructor
      · intro h
        rw [heq] at h
        exact absurd h hne
      · intro _
        exact ⟨msg, by rw [heq]; exact hbody⟩

/-- C10 witness: the catch-all paths produce a JSON error object: a thrown
fetch on a valid request, and an upstream 200 whose body is not JSON. -/
theorem C10_total_shape_witness :
    (∃ msg, (Functions.handler (some "k") (postEv bareNatal) .throws).body =
      Json.obj [("error", Json.str msg)]) ∧
    (∃ msg, (Functions.handler (some "k") (postEv bareNatal)
        (.responds 200 "not json" none)).body =
      Json.obj [("error", Json.str msg)]) ∧
    (∃ t srcs, (Functions.handler (some "k") (postEv bareNatal)
        (.responds 200 "" (some okResult))).body =
      Json.obj [("text", Json.str t), ("sources", Json.arr srcs)]) :=
  ⟨(C10_total_shape (some "k") (postEv bareNatal) .throws).2 (by decide),
   (C10_total_shape (some "k") (postEv bareNatal) (.responds 200 "not json" none)).2
     (by decide),
   (C10_total_shape (some "k") (postEv bareNatal) (.responds 200 "" (some okResult))).1
     (by decide)⟩

/-- C2: for every request exactly one template is selected — the branch
conditions cut by the fixed precedence order (matching, health, follow-up,
annual, daily, numerology, natal default) are satisfied by exactly one
template, the chain picks that template, and every prompt pair the route
produces is that single template's pair (templates are never combined). -/
theorem C2_one_template (c : ClientData) :
    (∃! t : Functions.Template, Functions.selected c t) ∧
    Functions.selected c (Functions.selectTemplate c) ∧
    (∀ p : Payload, Functions.route c = .ok p →
      p = Functions.promptsFor (Functions.selectTemplate c) c) :=
  ⟨⟨Functions.selectTemplate c, Functions.selected_selectTemplate c,
      fun t ht => Functions.selected_unique ht (Functions.selected_selectTemplate c)⟩,
   Functions.selected_selectTemplate c,
   fun _ hp => Functions.route_ok_promptsFor hp⟩

/-- C2 witness: on a plain health request, the route's output is the
health template's pair. -/
theorem C2_one_template_witness :
    ({ systemPrompt := Functions.healthSystem,
       userPrompt := Functions.healthUserBase none ++ "" ++ "" } : Payload) =
      Functions.promptsFor (Functions.selectTemplate bareHealth) bareHealth :=
  (C2_one_template bareHealth).2.2 _ rfl

/-- C8: any request carrying both previousReading and userQuery that is
not a matching or health request and has no yearInput selects the
follow-up template (not the natal default), and the route composes the
follow-up prompt pair. -/
theorem C8_followup_selected (c : ClientData)
    (hprev : truthy c.previousReading = true)
    (hq : truthy c.userQuery = true)
    (hm : c.readingType ≠ some "matching")
    (hh : c.readingType ≠ some "health")
    (hy : truthy c.yearInput = false) :
    Functions.selectTemplate c = .followUp ∧
    Functions.selectTemplate c ≠ .natal ∧
    (truthy c.readingType = true →
      Functions.route c = .ok
        { systemPrompt := Functions.followUpSystem,
          userPrompt := Functions.followUpUserBase c.previousReading c.userQuery ++
            Functions.chartStringP1 c ++ "" }) := by
  have hsel : Functions.selectTemplate c = .followUp := by
    simp [Functions.selectTemplate, hm, hh, hprev, hq]
  refine ⟨hsel, by rw [hsel]; simp, ?_⟩
  intro hrt
  unfold Functions.route Functions.routeAux
  simp [hrt, hm, hh, hprev, hq]

/-- C8 witness: a natal-typed follow-up request selects the follow-up
template. -/
theorem C8_followup_selected_witness :
    Functions.selectTemplate followUpReq = Functions.Template.followUp :=
  (C8_followup_selected followUpReq rfl rfl (by decide) (by decide) rfl).1

set_option maxRecDepth 20000 in
/-- C6: a matching request with complete birth details for both partners
composes a user prompt holding both partner chart-data blocks, and the
matching system prompt, which asks for a detailed paragraph for each of
the 8 Kootas and a compatibility score out of 36. -/
theorem C6_matching_prompts (c : ClientData) (bd1 bd2 : BirthDetails) (p : Payload)
    (hrt : c.readingType = some "matching")
    (hbd1 : c.birthDetailsPartner1 = some bd1)
    (h1d : truthy bd1.dob = true) (h1t : truthy bd1.tob = true)
    (h1c : truthy bd1.city = true)
    (hbd2 : c.birthDetailsPartner2 = some bd2)
    (h2d : truthy bd2.dob = true) (h2t : truthy bd2.tob = true)
    (h2c : truthy bd2.city = true)
    (hok : Functions.route c = .ok p) :
    p.userPrompt = Functions.matchingUserBase ++
      Functions.chartBlock "PARTNER 1" bd1 ++
      Functions.chartBlock "PARTNER 2" bd2 ∧
    containsStr p.userPrompt (Functions.chartBlock "PARTNER 1" bd1) ∧
    containsStr p.userPrompt (Functions.chartBlock "PARTNER 2" bd2) ∧
    p.systemPrompt = Functions.matchingSystem ∧
    containsStr Functions.matchingSystem
      "provide a detailed paragraph for each of the 8 Kootas" ∧
    containsStr Functions.matchingSystem
      "compatibility score (Guna Milan) out of 36" := by
  have hp := Functions.route_ok_promptsFor hok
  have hsel : Functions.selectTemplate c = .matching := by
    simp [Functions.selectTemplate, hrt]
  rw [hsel] at hp
  have hup : p.userPrompt = Functions.matchingUserBase ++
      Functions.chartBlock "PARTNER 1" bd1 ++
      Functions.chartBlock "PARTNER 2" bd2 := by
    rw [hp]
    simp [Functions.promptsFor, Functions.chartStringP1, hbd1, hbd2]
  have hsys : p.systemPrompt = Functions.matchingSystem := by
    rw [hp]
    rfl
  refine ⟨hup, ?_, ?_, hsys, ?_, ?_⟩
  · rw [hup]
    exact containsStr_append _ _ _
  · rw [hup]
    exact containsStr_append_right _ _
  · exact containsStr_of_b (by decide)
  · exact containsStr_of_b (by decide)

/-- C6 witness: the concrete matching request with full details for both
partners produces the double-chart user prompt. -/
theorem C6_matching_prompts_witness :
    ({ systemPrompt := Functions.matchingSystem,
       userPrompt := Functions.matchingUserBase ++
         Functions.chartBlock "PARTNER 1" fullBD ++
         Functions.chartBlock "PARTNER 2" fullBD } : Payload).userPrompt =
      Functions.matchingUserBase ++
        Functions.chartBlock "PARTNER 1" fullBD ++
        Functions.chartBlock "PARTNER 2" fullBD :=
  (C6_matching_prompts fullMatching fullBD fullBD _
    rfl rfl rfl rfl rfl rfl rfl rfl rfl rfl).1

/-- C7: in the composed user prompt (base ++ chartStringP1 ++
chartStringP2), the daily-horoscope and numerology templates carry no
chart-data block (both chart strings are reset to empty); every other
selected template appends the partner-1 chart block exactly when
birthDetailsPartner1 is present; and a partner-2 block is appended only
for the matching template. -/
theorem C7_chart_blocks (c : ClientData) (sys ub p1 p2 : String)
    (haux : Functions.routeAux c = .ok (sys, ub, p1, p2)) :
    ((Functions.selectTemplate c = .daily ∨
      Functions.selectTemplate c = .numerology) → p1 = "" ∧ p2 = "") ∧
    (¬(Functions.selectTemplate c = .daily ∨
       Functions.selectTemplate c = .numerology) →
      p1 = Functions.chartStringP1 c) ∧
    (∀ bd1, c.birthDetailsPartner1 = some bd1 →
      Functions.chartStringP1 c = Functions.chartBlock "PARTNER 1" bd1) ∧
    (c.birthDetailsPartner1 = none → Functions.chartStringP1 c = "") ∧
    (Functions.selectTemplate c = .matching →
      ∃ bd2, c.birthDetailsPartner2 = some bd2 ∧
        p2 = Functions.chartBlock "PARTNER 2" bd2) ∧
    (Functions.selectTemplate c ≠ .matching → p2 = "") ∧
    (∀ q : Payload, Functions.route c = .ok q →
      q.systemPrompt = sys ∧ q.userPrompt = ub ++ p1 ++ p2) := by
  have parts := Functions.routeAux_parts haux
  refine ⟨?_, ?_, ?_, ?_, ?_, ?_, ?_⟩
  · intro hd
    rcases parts with ⟨hm, -, -⟩ | ⟨ho, -, -⟩ | ⟨-, h1, h2⟩
    · rcases hd with hd | hd <;> rw [hm] at hd <;> simp at hd
    · rcases ho with h | h | h | h <;> rcases hd with hd | hd <;>
        rw [h] at hd <;> simp at hd
    · exact ⟨h1, h2⟩
  · intro hnd
    rcases parts with ⟨-, h1, -⟩ | ⟨-, h1, -⟩ | ⟨hdn, -, -⟩
    · exact h1
    · exact h1
    · exact absurd hdn hnd
  · intro bd1 h
    simp [Functions.chartStringP1, h]
  · intro h
    simp [Functions.chartStringP1, h]
  · intro hm
    rcases parts with ⟨-, -, hbd⟩ | ⟨ho, -, -⟩ | ⟨hdn, -, -⟩
    · exact hbd
    · rcases ho with h | h | h | h <;> rw [hm] at h <;> simp at h
    · rcases hdn with h | h <;> rw [hm] at h <;> simp at h
  · intro hnm
    rcases parts with ⟨hm, -, -⟩ | ⟨-, -, h2⟩ | ⟨-, -, h2⟩
    · exact absurd hm hnm
    · exact h2
    · exact h2
  · intro q hq
    unfold Functions.route at hq
    rw [haux] at hq
    simp only [Except.ok.injEq] at hq
    rw [← hq]
    exact ⟨rfl, rfl⟩

/-- C7 witness: the daily template resets both chart strings, and on the
concrete matching request the partner-1 chart string is the partner-1
block. -/
theorem C7_chart_blocks_witness :
    (("" : String) = "" ∧ ("" : String) = "") ∧
    Functions.chartStringP1 fullMatching =
      Functions.chartBlock "PARTNER 1" fullBD :=
  ⟨(C7_chart_blocks noSignDaily Functions.dailySystem
      (Functions.dailyUserBase none) "" "" rfl).1 (Or.inl rfl),
   (C7_chart_blocks fullMatching Functions.matchingSystem
      Functions.matchingUserBase (Functions.chartStringP1 fullMatching)
      (Functions.chartBlock "PARTNER 2" fullBD) rfl).2.2.1 fullBD rfl⟩

/-- C1 counterexample: a daily-horoscope request with zodiacSign absent (a
missing type-specific required field per the claim) is not rejected with
400 — the handler proceeds, calls the upstream API with "undefined"
interpolated into the prompt, and returns 200 on an upstream success. -/
theorem C1_counterexample :
    (Functions.handler (some "key") (postEv noSignDaily)
      (.responds 200 "" (some okResult))).statusCode = 200 ∧
    (Functions.handler (some "key") (postEv noSignDaily)
      (.responds 200 "" (some okResult))).upstreamCall =
      some { systemPrompt := Functions.dailySystem,
             userPrompt := Functions.dailyUserBase none ++ "" ++ "" } :=
  ⟨rfl, rfl⟩

/-- C1 amended: only two type-specific validations exist.  A matching
request whose partner-2 birth details are missing or incomplete, and a
numerology request (when the follow-up and annual-forecast branches do not
fire) whose numerologyDetails lacks name or dob, get a 400 naming the
missing field set with no upstream call; a daily-horoscope request with
zodiacSign absent is not validated and proceeds to the upstream call. -/
theorem C1_amended (key : Option String) (c : ClientData) (up : Upstream)
    (hk : truthy key = true) (hrt : truthy c.readingType = true) :
    (c.readingType = some "matching" →
      bd2Complete c.birthDetailsPartner2 = false →
      Functions.handler key (postEv c) up =
        errResult 400 "Invalid request: Missing required birth details for Partner 2 for matching.") ∧
    (c.readingType = some "numerology" →
      (truthy c.previousReading && truthy c.userQuery) = false →
      truthy c.yearInput = false →
      numComplete c.numerologyDetails = false →
      Functions.handler key (postEv c) up =
        errResult 400 "Invalid request: Missing required name and DOB for numerology.") ∧
    (c.readingType = some "daily_horoscope" →
      (truthy c.previousReading && truthy c.userQuery) = false →
      truthy c.yearInput = false →
      (Functions.handler key (postEv c) up).upstreamCall =
        some { systemPrompt := Functions.dailySystem,
               userPrompt := Functions.dailyUserBase c.zodiacSign ++ "" ++ "" }) := by
  refine ⟨?_, ?_, ?_⟩
  · intro hm hbad
    have hroute : Functions.route c =
        .error (400, "Invalid request: Missing required birth details for Partner 2 for matching.") := by
      have hlit : truthy (some ("matching" : String)) = true := rfl
      unfold Functions.route Functions.routeAux
      rcases hbd : c.birthDetailsPartner2 with _ | bd
      · simp [hrt, hm, hbd, hlit]
      · rw [hbd] at hbad
        simp only [bd2Complete] at hbad
        have hg : (!truthy bd.dob || !truthy bd.tob || !truthy bd.city) = true := by
          cases h1 : truthy bd.dob <;> cases h2 : truthy bd.tob <;>
            cases h3 : truthy bd.city <;> simp_all
        simp [hrt, hm, hbd, hg, hlit]
    simp [Functions.handler, postEv, hk, hroute]
  · intro hm hfu hy hbad
    have hroute : Functions.route c =
        .error (400, "Invalid request: Missing required name and DOB for numerology.") := by
      have hlit : truthy (some ("numerology" : String)) = true := rfl
      unfold Functions.route Functions.routeAux
      rcases hnd : c.numerologyDetails with _ | nd
      · simp [hrt, hm, hfu, hy, hnd, hlit]
      · rw [hnd] at hbad
        simp only [numComplete] at hbad
        have hg : (!truthy nd.name || !truthy nd.dob) = true := by
          cases h1 : truthy nd.name <;> cases h2 : truthy nd.dob <;> simp_all
        simp [hrt, hm, hfu, hy, hnd, hg, hlit]
    simp [Functions.handler, postEv, hk, hroute]
  · intro hm hfu hy
    have hroute : Functions.route c = .ok
        { systemPrompt := Functions.dailySystem,
          userPrompt := Functions.dailyUserBase c.zodiacSign ++ "" ++ "" } := by
      have hlit : truthy (some ("daily_horoscope" : String)) = true := rfl
      unfold Functions.route Functions.routeAux
      simp [hrt, hm, hfu, hy, hlit]
    simp [Functions.handler, postEv, hk, hroute, callUpstream_upstreamCall]

/-- C1 amended witness: the three amended outcomes at concrete inputs — a
matching request with no partner-2 details, a numerology request with no
numerologyDetails, and the unvalidated daily-horoscope request. -/
theorem C1_amended_witness :
    Functions.handler (some "k") (postEv bareMatching) .throws =
      errResult 400 "Invalid request: Missing required birth details for Partner 2 for matching." ∧
    Functions.handler (some "k") (postEv bareNumerology) .throws =
      errResult 400 "Invalid request: Missing required name and DOB for numerology." ∧
    (Functions.handler (some "k") (postEv noSignDaily) .throws).upstreamCall =
      some { systemPrompt := Functions.dailySystem,
             userPrompt := Functions.dailyUserBase none ++ "" ++ "" } :=
  ⟨(C1_amended (some "k") bareMatching .throws rfl rfl).1 rfl rfl,
   (C1_amended (some "k") bareNumerology .throws rfl rfl).2.1 rfl rfl rfl rfl,
   (C1_amended (some "k") noSignDaily .throws rfl rfl).2.2 rfl rfl rfl⟩

/-- C9: the two revisions are not behaviourally equivalent.  The older
revision 400-rejects every request without a birthDetails object and never
calls upstream there; the later revision's validation verdict is
independent of birthDetailsPartner1 (it never validates it); and on the
concrete health request with no birth details the older revision returns
400 with no upstream call while the later one calls the upstream API. -/
theorem C9_revisions_diverge :
    (∀ (key : Option String) (c : ClientData) (up : Upstream),
      truthy key = true → c.birthDetails = none →
      Legacy.handler key (postEv c) up =
        errResult 400 "Invalid request: Missing required birth details (dob, tob, city).") ∧
    (∀ c : ClientData,
      exceptOk (Functions.route { c with birthDetailsPartner1 := none }) =
        exceptOk (Functions.route c)) ∧
    ((Legacy.handler (some "k") (postEv bareHealth) .throws).statusCode = 400 ∧
     (Legacy.handler (some "k") (postEv bareHealth) .throws).upstreamCall = none ∧
     (Functions.handler (some "k") (postEv bareHealth) .throws).upstreamCall =
       some { systemPrompt := Functions.healthSystem,
              userPrompt := Functions.healthUserBase none ++ "" ++ "" }) := by
  refine ⟨?_, ?_, rfl, rfl, rfl⟩
  · intro key c up hk hbd
    simp [Legacy.handler, postEv, hk, Legacy.route, hbd]
  · intro c
    rw [Functions.exceptOk_route, Functions.exceptOk_route]
    by_cases hb : exceptOk (Functions.routeAux c) = false
    · rw [hb,
        (Functions.routeAux_error_iff { c with birthDetailsPartner1 := none }).mpr
          ((Functions.routeAux_error_iff c).mp hb)]
    · have hb1 : exceptOk (Functions.routeAux c) = true := by
        cases h : exceptOk (Functions.routeAux c)
        · exact absurd h hb
        · rfl
      rw [hb1]
      by_cases hb' : exceptOk
          (Functions.routeAux { c with birthDetailsPartner1 := none }) = false
      · exact absurd
          ((Functions.routeAux_error_iff c).mpr
            ((Functions.routeAux_error_iff
              { c with birthDetailsPartner1 := none }).mp hb')) hb
      · cases h : exceptOk (Functions.routeAux { c with birthDetailsPartner1 := none })
        · exact absurd h hb'
        · rfl

/-- C9 witness: the older revision rejects the concrete health request
that carries no birth details. -/
theorem C9_revisions_diverge_witness :
    Legacy.handler (some "k") (postEv bareHealth) .throws =
      errResult 400 "Invalid request: Missing required birth details (dob, tob, city)." :=
  C9_revisions_diverge.1 (some "k") bareHealth .throws rfl rfl

end CosmicCompass
